import Mathlib

/-!
Verification of the multi-model prompt playground of this repository.

The browser-side playground code (`playground.js`, state management,
`handleAnalyze`, `createResultCard`, `getMetaAnalysis`,
`displayMetaAnalysis`, `toggleModelSelection`, `escapeHtml`) is embedded
shallowly below: DOM state is an explicit record, the two `fetch` calls
are parameterized by their outcomes, and the async control flow of
`handleAnalyze` becomes a pure state-and-trace function.

The Flask backend of the playground (provider adapters, the fan-out over
the selected models, and the judge-based meta-analysis parsing) is not
part of the repository snapshot; the definitions in the `Backend`
namespace are modelled from the specification and are marked as such.
-/

namespace Playground

/-- JavaScript `String.prototype.trim` semantics: strip leading and
trailing whitespace.  The whitespace class covers space, tab, LF, CR,
VT, FF, NBSP, BOM and the Unicode line/paragraph separators (the JS
WhiteSpace and LineTerminator productions). -/
def isJsWhitespace (c : Char) : Bool :=
  c = ' ' || c = '\t' || c = '\n' || c = '\r' ||
  c.val = 11 || c.val = 12 || c.val = 160 || c.val = 0xFEFF ||
  c.val = 0x2028 || c.val = 0x2029

/-- Embedding of the JavaScript `.trim()` calls in `playground.js`. -/
def jsTrim (s : String) : String :=
  String.mk (((s.data.dropWhile isJsWhitespace).reverse.dropWhile isJsWhitespace).reverse)

/-- One character of the HTML escaping performed by `escapeHtml` in
`playground.js` (`div.textContent = text; return div.innerHTML`): the
browser serializes a text node escaping exactly `&`, `<` and `>`. -/
def escCharL (c : Char) : List Char :=
  if c = '&' then "&amp;".data
  else if c = '<' then "&lt;".data
  else if c = '>' then "&gt;".data
  else [c]

/-- Character-list version of `escapeHtml`. -/
def escListL : List Char → List Char
  | [] => []
  | c :: cs => escCharL c ++ escListL cs

/-- Embedding of `escapeHtml` from `playground.js`: serialize a string as HTML text,
escaping `&`, `<`, `>`. -/
def escapeHtml (s : String) : String :=
  String.mk (escListL s.data)

/-- Inverse HTML-entity reading, used to state that the escaped text
still denotes the original model output. -/
def unescListL : List Char → List Char
  | [] => []
  | '&' :: 'a' :: 'm' :: 'p' :: ';' :: rest => '&' :: unescListL rest
  | '&' :: 'l' :: 't' :: ';' :: rest => '<' :: unescListL rest
  | '&' :: 'g' :: 't' :: ';' :: rest => '>' :: unescListL rest
  | c :: rest => c :: unescListL rest

/-- String version of `unescListL`. -/
def unescapeHtml (s : String) : String :=
  String.mk (unescListL s.data)

/-- Character-list version of `.replace(/\n/g, '<br>')` as applied in
`createResultCard` after `escapeHtml`. -/
def nlToBrL : List Char → List Char
  | [] => []
  | c :: cs => (if c = '\n' then "<br>".data else [c]) ++ nlToBrL cs

/-- Newline replacement `.replace(/\n/g, '<br>')` from `createResultCard`. -/
def nlToBr (s : String) : String :=
  String.mk (nlToBrL s.data)

/-- The `metadata` object of one wire result as read by the UI
(`result.metadata.latency`, `.tokens`, `.cost_estimate`).  JS numbers
are modelled as rationals. -/
structure WireMetadata where
  latency : ℚ
  tokens : Option Nat
  cost_estimate : Option ℚ
deriving DecidableEq, Repr

/-- One entry of `data.results` as read by the UI: fields `model`,
`status`, `response`, optional `metadata` (§6 wire shape). -/
structure WireResult where
  model : String
  status : String
  response : String
  metadata : Option WireMetadata
deriving DecidableEq, Repr

/-- The `data.analysis` object read by `displayMetaAnalysis`. -/
structure Analysis where
  clarity_score : ℚ
  relevance_score : ℚ
  factual_accuracy : ℚ
  reasoning_quality : ℚ
  conciseness : ℚ
  overall_summary : String
deriving DecidableEq, Repr

/-- Rendering of a JS number into the HTML template.  The exact decimal
formatting of JS is not modelled bit-exactly; no claim depends on it. -/
def numFmt (q : ℚ) : String := toString q

/-- Lookup `statusColors[result.status]` from `createResultCard`. -/
def statusColors (status : String) : Option String :=
  if status = "Success" then some "bg-green-500/20 text-green-400 border-green-500/30"
  else if status = "Configuration Required" then some "bg-yellow-500/20 text-yellow-400 border-yellow-500/30"
  else if status = "Error" then some "bg-red-500/20 text-red-400 border-red-500/30"
  else none

/-- Fallback `statusColors[result.status] || 'bg-gray-500/20 ...'`. -/
def statusClass (status : String) : String :=
  (statusColors status).getD "bg-gray-500/20 text-gray-400 border-gray-500/30"

/-- Lookup `modelDisplayNames[result.model]` from `createResultCard`. -/
def modelDisplayNames (m : String) : Option String :=
  if m = "gemini-2.0-flash-exp" then some "Gemini 2.0 Flash"
  else if m = "gpt-4-turbo" then some "GPT-4 Turbo"
  else if m = "gpt-3.5-turbo" then some "GPT-3.5 Turbo"
  else if m = "claude-3-opus" then some "Claude 3 Opus"
  else none

/-- The `response` local of `createResultCard`: the success text, the
fixed configuration hint, or `Error: ` plus the wire `response` field. -/
def responseFor (r : WireResult) : String :=
  if r.status = "Success" then r.response
  else if r.status = "Configuration Required" then
    "This model requires configuration. Please add the necessary API keys to your .env file."
  else "Error: " ++ r.response

/-- The conditional metadata grid of `createResultCard`; note the JS
falsiness of `result.metadata.tokens || 'N/A'` and
`result.metadata.cost_estimate ? ... : 'N/A'` on the value `0`. -/
def metadataHtml (m : Option WireMetadata) : String :=
  match m with
  | none => ""
  | some md =>
    "<div class=\"grid grid-cols-3 gap-3\">" ++
    "<div class=\"bg-white/5 rounded-lg p-3 text-center border border-white/10\">" ++
    "<div class=\"text-xs text-gray-400 mb-1\">Latency</div>" ++
    "<div class=\"text-sm font-bold text-primary\">" ++ numFmt md.latency ++ "s</div></div>" ++
    "<div class=\"bg-white/5 rounded-lg p-3 text-center border border-white/10\">" ++
    "<div class=\"text-xs text-gray-400 mb-1\">Tokens</div>" ++
    "<div class=\"text-sm font-bold text-primary\">" ++
    (match md.tokens with
     | some t => if t = 0 then "N/A" else toString t
     | none => "N/A") ++ "</div></div>" ++
    "<div class=\"bg-white/5 rounded-lg p-3 text-center border border-white/10\">" ++
    "<div class=\"text-xs text-gray-400 mb-1\">Cost</div>" ++
    "<div class=\"text-sm font-bold text-primary\">$" ++
    (match md.cost_estimate with
     | some c => if c = 0 then "N/A" else numFmt c
     | none => "N/A") ++ "</div></div></div>"

/-- Everything of the result-card template before the escaped response
body. -/
def cardHead (r : WireResult) : String :=
  "<div class=\"acrylic rounded-2xl p-5 border border-white/10 hover:border-primary/30 transition\">" ++
  "<div class=\"flex items-center justify-between mb-4 pb-3 border-b border-white/10\">" ++
  "<h4 class=\"font-semibold text-gray-200\">" ++ (modelDisplayNames r.model).getD r.model ++ "</h4>" ++
  "<span class=\"px-2 py-1 text-xs font-medium rounded-lg border " ++ statusClass r.status ++ "\">" ++
  r.status ++ "</span></div>" ++
  "<div class=\"bg-black/30 rounded-xl p-4 mb-4 font-mono text-sm text-gray-300 max-h-64 overflow-y-auto border border-white/5\">"

/-- Everything of the result-card template after the escaped response
body. -/
def cardTail (r : WireResult) : String :=
  "</div>" ++ metadataHtml r.metadata ++ "</div>"

/-- Embedding of `createResultCard` from `playground.js`: the response text is
HTML-escaped and then newlines become `<br>` before insertion. -/
def createResultCard (r : WireResult) : String :=
  cardHead r ++ nlToBr (escapeHtml (responseFor r)) ++ cardTail r

/-- The header + five score tiles of the meta-analysis template, before
the summary block (scores are interpolated unescaped JS numbers). -/
def metaScoresHead (a : Analysis) : String :=
  "<div class=\"flex items-center gap-3 mb-6\">" ++
  "<span class=\"material-icons text-primary\" style=\"font-size: 32px;\">analytics</span>" ++
  "<h3 class=\"text-xl font-bold text-gray-200\">AI Meta-Analysis by Gemini</h3></div>" ++
  "<div class=\"grid grid-cols-2 md:grid-cols-5 gap-3 mb-6\">" ++
  "<div class=\"bg-gradient-to-br from-primary/10 to-primary/5 rounded-xl p-4 text-center border border-primary/20\">" ++
  "<div class=\"text-xs text-gray-400 uppercase tracking-wider mb-2\">Clarity</div>" ++
  "<div class=\"text-3xl font-bold text-primary\">" ++ numFmt a.clarity_score ++
  "<span class=\"text-lg text-gray-500\">/10</span></div></div>" ++
  "<div class=\"bg-gradient-to-br from-primary/10 to-primary/5 rounded-xl p-4 text-center border border-primary/20\">" ++
  "<div class=\"text-xs text-gray-400 uppercase tracking-wider mb-2\">Relevance</div>" ++
  "<div class=\"text-3xl font-bold text-primary\">" ++ numFmt a.relevance_score ++
  "<span class=\"text-lg text-gray-500\">/10</span></div></div>" ++
  "<div class=\"bg-gradient-to-br from-primary/10 to-primary/5 rounded-xl p-4 text-center border border-primary/20\">" ++
  "<div class=\"text-xs text-gray-400 uppercase tracking-wider mb-2\">Accuracy</div>" ++
  "<div class=\"text-3xl font-bold text-primary\">" ++ numFmt a.factual_accuracy ++
  "<span class=\"text-lg text-gray-500\">/10</span></div></div>" ++
  "<div class=\"bg-gradient-to-br from-primary/10 to-primary/5 rounded-xl p-4 text-center border border-primary/20\">" ++
  "<div class=\"text-xs text-gray-400 uppercase tracking-wider mb-2\">Reasoning</div>" ++
  "<div class=\"text-3xl font-bold text-primary\">" ++ numFmt a.reasoning_quality ++
  "<span class=\"text-lg text-gray-500\">/10</span></div></div>" ++
  "<div class=\"bg-gradient-to-br from-primary/10 to-primary/5 rounded-xl p-4 text-center border border-primary/20\">" ++
  "<div class=\"text-xs text-gray-400 uppercase tracking-wider mb-2\">Conciseness</div>" ++
  "<div class=\"text-3xl font-bold text-primary\">" ++ numFmt a.conciseness ++
  "<span class=\"text-lg text-gray-500\">/10</span></div></div></div>" ++
  "<div class=\"bg-black/30 rounded-xl p-5 border border-white/10\">" ++
  "<h4 class=\"text-sm font-semibold text-gray-300 uppercase tracking-wider mb-3\">Overall Summary</h4>" ++
  "<p class=\"text-gray-300 leading-relaxed\">"

/-- Close of the summary block of the meta-analysis template. -/
def metaSummaryTail : String := "</p></div>"

/-- The HTML assigned to `metaAnalysisEl.innerHTML` by
`displayMetaAnalysis`: only the overall summary goes through
`escapeHtml`. -/
def displayMetaAnalysisHtml (a : Analysis) : String :=
  metaScoresHead a ++ escapeHtml a.overall_summary ++ metaSummaryTail

/-- The `#metaAnalysis` element: its `style.display` toggle and its
`innerHTML`. -/
structure MetaPanel where
  visible : Bool
  innerHTML : String
deriving DecidableEq, Repr

/-- Content of `#resultsContainer`.  `rendered` keeps the per-model card
markup separate from the nested `#metaAnalysis` child, mirroring that
`metaAnalysisEl.innerHTML = ...` touches only that child element. -/
inductive ResultsContainer where
  | initialEmpty : ResultsContainer
  | loading (modelCount : Nat) : ResultsContainer
  | requestError (msg : String) : ResultsContainer
  | rendered (cards : List String) (meta : MetaPanel) : ResultsContainer
deriving DecidableEq, Repr

/-- Observable steps of the playground flow, in program order. -/
inductive Event where
  | runPromptRequest (system_instruction : String) (prompt : String) (models : List String) : Event
  | analyzeResultsRequest (results : List WireResult) (original_prompt : String) : Event
  | alertShown (msg : String) : Event
  | cardsRendered (results : List WireResult) : Event
  | metaScoresRendered (a : Analysis) : Event
  | metaErrorRendered (msg : String) : Event
deriving DecidableEq, Repr

/-- Outcome of one `fetch`: parsed 2xx JSON, a non-ok HTTP status
(`throw new Error('HTTP error! status: ...')`), or a rejected promise. -/
inductive FetchOutcome (α : Type) where
  | ok (data : α) : FetchOutcome α
  | httpErrorStatus (status : Nat) : FetchOutcome α
  | networkError (msg : String) : FetchOutcome α
deriving DecidableEq, Repr

/-- The `error.message` observed in the `catch` blocks. -/
def errMessage {α : Type} : FetchOutcome α → String
  | .httpErrorStatus status => "HTTP error! status: " ++ toString status
  | .networkError msg => msg
  | .ok _ => ""

/-- Parsed body of a 2xx `/playground/api/run_prompt` response. -/
structure RunPromptResponse where
  results : List WireResult
  total_time : ℚ
deriving DecidableEq, Repr

/-- Parsed body of a 2xx `/playground/api/analyze_results` response. -/
structure AnalyzeResponse where
  analysis : Analysis
deriving DecidableEq, Repr

/-- The `playgroundState` record written to localStorage by `saveState`
(the timestamp is wall-clock and not modelled). -/
structure SavedState where
  systemInstruction : String
  userPrompt : String
  selectedModels : List String
  results : Option (List WireResult)
deriving DecidableEq, Repr

/-- Page state of `playground.js`: the module-level mutable bindings,
the two textarea values, the analyze button, and the results DOM. -/
structure UiState where
  selectedModels : List String
  isAnalyzing : Bool
  currentResults : Option (List WireResult)
  systemInstructionVal : String
  userPromptVal : String
  container : ResultsContainer
  clearButtonHidden : Bool
  analyzeButtonDisabled : Bool
  analyzeButtonLabel : String
  savedState : Option SavedState
deriving DecidableEq, Repr

/-- Embedding of `updateAnalyzeButton` from `playground.js`. -/
def updateAnalyzeButton (st : UiState) : UiState :=
  let hasPrompt := (jsTrim st.userPromptVal).data.length > 0
  let hasModels := st.selectedModels.length > 0
  let disabled := !hasPrompt || !hasModels || st.isAnalyzing
  let label :=
    if !hasPrompt then "Enter a prompt to analyze"
    else if !hasModels then "Select at least one model"
    else if st.isAnalyzing then "Analyzing..."
    else "Analyze Across Models"
  { st with analyzeButtonDisabled := disabled, analyzeButtonLabel := label }

/-- Embedding of `toggleModelSelection` from `playground.js` (the card CSS-class
toggle tracks membership and is not modelled separately): remove the
model via `.filter(m => m !== model)` when `.includes` holds, else
`.push` it, then refresh the button. -/
def toggleModelSelection (model : String) (st : UiState) : UiState :=
  let sel :=
    if st.selectedModels.contains model then
      st.selectedModels.filter (fun m => m != model)
    else
      st.selectedModels ++ [model]
  updateAnalyzeButton { st with selectedModels := sel }

/-- Initial `innerHTML` of the hidden `#metaAnalysis` placeholder
emitted by `displayResults`. -/
def placeholderMetaHtml : String :=
  "<div class=\"flex items-center gap-3 mb-4\">" ++
  "<span class=\"material-icons text-primary\" style=\"font-size: 32px;\">analytics</span>" ++
  "<h3 class=\"text-xl font-bold text-gray-200\">AI Meta-Analysis by Gemini</h3></div>" ++
  "<div class=\"text-center py-8\">" ++
  "<div class=\"inline-block w-10 h-10 border-4 border-primary/30 border-t-primary rounded-full animate-spin mb-3\"></div>" ++
  "<p class=\"text-gray-400 text-sm\">Generating meta-analysis...</p></div>"

/-- Markup assigned to `metaAnalysisEl.innerHTML` by the `catch` block of
`getMetaAnalysis`. -/
def metaFailureHtml (msg : String) : String :=
  "<div class=\"flex items-center gap-3 mb-4\">" ++
  "<span class=\"material-icons text-primary\" style=\"font-size: 32px;\">analytics</span>" ++
  "<h3 class=\"text-xl font-bold text-gray-200\">AI Meta-Analysis</h3></div>" ++
  "<div class=\"bg-red-500/10 border border-red-500/30 rounded-xl p-4 flex items-start gap-3\">" ++
  "<span class=\"material-icons text-red-400\">error</span>" ++
  "<div class=\"text-sm text-gray-300\">Failed to generate meta-analysis: " ++ msg ++ "</div></div>"

/-- Effect of `document.getElementById('metaAnalysis').style.display = 'block'`:
only the nested meta panel of a rendered container changes. -/
def setMetaVisible (c : ResultsContainer) : ResultsContainer :=
  match c with
  | .rendered cards meta => .rendered cards { meta with visible := true }
  | c => c

/-- Effect of `metaAnalysisEl.innerHTML = html`: only the nested meta panel of a
rendered container changes. -/
def setMetaHtml (html : String) (c : ResultsContainer) : ResultsContainer :=
  match c with
  | .rendered cards meta => .rendered cards { meta with innerHTML := html }
  | c => c

/-- Embedding of `displayResults` from `playground.js`: unhide the clear button and
replace the container with one card per result plus the hidden
meta-analysis placeholder. -/
def displayResults (st : UiState) (results : List WireResult) : UiState :=
  { st with
    clearButtonHidden := false,
    container := .rendered (results.map createResultCard) ⟨false, placeholderMetaHtml⟩ }

/-- Embedding of `getMetaAnalysis` from `playground.js`: show the panel, POST the
aggregate results and the original prompt to
`/playground/api/analyze_results`, then either render the score
dashboard or swallow the failure into the panel's own error markup. -/
def getMetaAnalysis (st : UiState) (results : List WireResult) (originalPrompt : String)
    (outcome : FetchOutcome AnalyzeResponse) : UiState × List Event :=
  let st := { st with container := setMetaVisible st.container }
  let req : Event := .analyzeResultsRequest results originalPrompt
  match outcome with
  | .ok d =>
    ({ st with container := setMetaHtml (displayMetaAnalysisHtml d.analysis) st.container },
     [req, .metaScoresRendered d.analysis])
  | e =>
    ({ st with container := setMetaHtml (metaFailureHtml (errMessage e)) st.container },
     [req, .metaErrorRendered (errMessage e)])

/-- Embedding of `saveState` from `playground.js`. -/
def saveState (st : UiState) : UiState :=
  let saved : SavedState :=
    { systemInstruction := st.systemInstructionVal
      userPrompt := st.userPromptVal
      selectedModels := st.selectedModels
      results := st.currentResults }
  { st with savedState := some saved }

/-- Embedding of `handleAnalyze` from `playground.js`, with the two fetches
parameterized by their outcomes.  Returns the final page state and the
ordered trace of observable events. -/
def handleAnalyze (st : UiState) (runOutcome : FetchOutcome RunPromptResponse)
    (metaOutcome : FetchOutcome AnalyzeResponse) : UiState × List Event :=
  if st.isAnalyzing then (st, [])
  else
    let systemInstruction := jsTrim st.systemInstructionVal
    let userPrompt := jsTrim st.userPromptVal
    if userPrompt = "" then (st, [.alertShown "Please enter a user prompt"])
    else if st.selectedModels.length = 0 then
      (st, [.alertShown "Please select at least one model"])
    else
      let st := updateAnalyzeButton { st with isAnalyzing := true }
      let st := { st with container := .loading st.selectedModels.length }
      let req : Event := .runPromptRequest systemInstruction userPrompt st.selectedModels
      match runOutcome with
      | .ok data =>
        let st := { st with currentResults := some data.results }
        let st := displayResults st data.results
        let (st, metaEvents) := getMetaAnalysis st data.results userPrompt metaOutcome
        let st := saveState st
        let st := updateAnalyzeButton { st with isAnalyzing := false }
        (st, req :: .cardsRendered data.results :: metaEvents)
      | e =>
        let st := { st with
          container := .requestError ("Failed to analyze prompt: " ++ errMessage e) }
        let st := updateAnalyzeButton { st with isAnalyzing := false }
        (st, [req])

end Playground

namespace Backend

/-- Modelled from the spec: the `status` field of a ProviderResult
(§3), one of `Success`, `ConfigurationMissing`, `Error`. -/
inductive PStatus where
  | success : PStatus
  | configurationMissing : PStatus
  | error : PStatus
deriving DecidableEq, Repr

/-- Modelled from the spec: the optional per-result metadata of §3
(`latencySeconds`, `tokenCount`, `costEstimate`). -/
structure ResultMetadata where
  latencySeconds : ℚ
  tokenCount : Option Nat
  costEstimate : Option ℚ
deriving DecidableEq, Repr

/-- Modelled from the spec: ProviderResult (§3) — the repository
snapshot does not contain the Flask playground backend, only its
documentation and its browser-side caller. -/
structure ProviderResult where
  provider : String
  status : PStatus
  responseText : Option String
  errorDetail : Option String
  metadata : Option ResultMetadata
deriving DecidableEq, Repr

/-- Modelled from the spec: RunResult (§3). -/
structure RunResult where
  results : List ProviderResult
  totalElapsedSeconds : ℚ
deriving DecidableEq, Repr

/-- Modelled from the spec: the outcome of the single outbound HTTP
request a configured adapter issues (§4.1): a 2xx body with the
extracted generated text, latency and usage, a non-2xx status, a
transport failure, or a body from which no text can be extracted. -/
inductive HttpOutcome where
  | ok (text : String) (latencySeconds : ℚ) (tokens : Option Nat) : HttpOutcome
  | httpStatus (code : Nat) (providerMsg : String) : HttpOutcome
  | transportFailure (msg : String) : HttpOutcome
  | malformedBody : HttpOutcome
deriving DecidableEq, Repr

/-- Modelled from the spec: the network, as an oracle mapping
(provider, system instruction, user prompt) to the outcome the
provider's endpoint would produce.  The adapter decides whether the
oracle is consulted at all. -/
def HttpOracle : Type := String → String → String → HttpOutcome

/-- Modelled from the spec: process-wide provider configuration (§4.1,
§6) — whether the required credentials/endpoint settings for a given
provider identifier are all present (unknown identifiers are absent
from the allow-list and count as unconfigured). -/
def ProviderConfig : Type := String → Bool

/-- Modelled from the spec: the static per-provider price-per-token
table used for `costEstimate` (§4.1). -/
def PriceTable : Type := String → Option ℚ

/-- Modelled from the spec: the Provider Adapter `invoke` (§4.1).
Returns the normalized ProviderResult together with the number of
outbound HTTP calls issued.  The configuration check precedes any
network activity; on a 2xx body from which no generated text can be
extracted (modelled as the empty string) the adapter reports a
malformed body rather than an empty success. -/
def invoke (cfg : ProviderConfig) (prices : PriceTable) (oracle : HttpOracle)
    (provider systemInstruction userPrompt : String) : ProviderResult × Nat :=
  if cfg provider = false then
    ({ provider := provider, status := .configurationMissing,
       responseText := none, errorDetail := none, metadata := none }, 0)
  else
    match oracle provider systemInstruction userPrompt with
    | .ok text latency tokens =>
      if text = "" then
        ({ provider := provider, status := .error, responseText := none,
           errorDetail := some "malformed response body", metadata := none }, 1)
      else
        ({ provider := provider, status := .success, responseText := some text,
           errorDetail := none,
           metadata := some
             { latencySeconds := latency, tokenCount := tokens,
               costEstimate := (prices provider).bind fun price =>
                 tokens.map fun t => price * t } }, 1)
    | .httpStatus code providerMsg =>
      ({ provider := provider, status := .error, responseText := none,
         errorDetail := some ("HTTP " ++ toString code ++ ": " ++ providerMsg),
         metadata := none }, 1)
    | .transportFailure msg =>
      ({ provider := provider, status := .error, responseText := none,
         errorDetail := some ("transport error: " ++ msg), metadata := none }, 1)
    | .malformedBody =>
      ({ provider := provider, status := .error, responseText := none,
         errorDetail := some "malformed response body", metadata := none }, 1)

/-- Modelled from the spec: the latency a finished call contributes to
the sequential wall clock. -/
def latencyOf (r : ProviderResult) : ℚ :=
  match r.metadata with
  | some md => md.latencySeconds
  | none => 0

/-- Modelled from the spec: the Fan-Out Runner `run` (§4.2) — one
adapter call per requested provider, in request order, no
short-circuiting. -/
def runFanOut (cfg : ProviderConfig) (prices : PriceTable) (oracle : HttpOracle)
    (systemInstruction userPrompt : String) (providers : List String) : RunResult :=
  let results := providers.map fun p =>
    (invoke cfg prices oracle p systemInstruction userPrompt).1
  { results := results, totalElapsedSeconds := (results.map latencyOf).sum }

/-- Modelled from the spec: the wire spelling of a status (§6):
`ConfigurationMissing` is serialized as `Configuration Required`. -/
def statusWire : PStatus → String
  | .success => "Success"
  | .configurationMissing => "Configuration Required"
  | .error => "Error"

/-- Modelled from the spec: §6 serialization of a ProviderResult — a
single `response` field carries the success text or the error detail. -/
def serializeResult (r : ProviderResult) : Playground.WireResult :=
  { model := r.provider
    status := statusWire r.status
    response :=
      match r.status with
      | .success => r.responseText.getD ""
      | .error => r.errorDetail.getD ""
      | .configurationMissing => ""
    metadata := r.metadata.map fun md =>
      { latency := md.latencySeconds, tokens := md.tokenCount,
        cost_estimate := md.costEstimate } }

/-- Modelled from the spec: the judge's response after raw extraction
(§4.3) — each of the five scores and the summary may be missing. -/
structure RawJudgeResponse where
  clarity_score : Option ℚ
  relevance_score : Option ℚ
  factual_accuracy : Option ℚ
  reasoning_quality : Option ℚ
  conciseness : Option ℚ
  overall_summary : Option String
deriving DecidableEq, Repr

/-- Modelled from the spec: MetaAnalysis (§3) — all five scores
present, plus the summary. -/
structure MetaAnalysis where
  clarity : ℚ
  relevance : ℚ
  factualAccuracy : ℚ
  reasoningQuality : ℚ
  conciseness : ℚ
  overallSummary : String
deriving DecidableEq, Repr

/-- Modelled from the spec: the failure mode of the Meta-Analysis
Requester (§4.3, §7). -/
inductive AnalysisFailure where
  | analysisUnavailable : AnalysisFailure
deriving DecidableEq, Repr

/-- Modelled from the spec: a score is accepted when present and within
[0, 10] (§4.3). -/
def scoreOk (s : Option ℚ) : Bool :=
  match s with
  | none => false
  | some q => decide (0 ≤ q) && decide (q ≤ 10)

/-- Modelled from the spec: the validation/parsing step of the
Meta-Analysis Requester `analyze` (§4.3): if any of the five scores is
missing or out of [0,10], or the summary is absent, fail with
`AnalysisUnavailable`; otherwise return the scores exactly as parsed,
substituting nothing. -/
def analyze (raw : RawJudgeResponse) : Except AnalysisFailure MetaAnalysis :=
  match raw.clarity_score, raw.relevance_score, raw.factual_accuracy,
        raw.reasoning_quality, raw.conciseness, raw.overall_summary with
  | some c, some r, some f, some q, some n, some s =>
    if scoreOk (some c) && scoreOk (some r) && scoreOk (some f) &&
       scoreOk (some q) && scoreOk (some n) then
      .ok { clarity := c, relevance := r, factualAccuracy := f,
            reasoningQuality := q, conciseness := n, overallSummary := s }
    else .error .analysisUnavailable
  | _, _, _, _, _, _ => .error .analysisUnavailable

end Backend

namespace Playground

/-- Recognizer for the analyze-results POST in an event trace. -/
def isAnalyzeRequest : Event → Bool
  | .analyzeResultsRequest _ _ => true
  | _ => false

/-- Recognizer for the run-prompt POST in an event trace. -/
def isRunPromptRequest : Event → Bool
  | .runPromptRequest _ _ _ => true
  | _ => false

/-- The per-model card markup currently in the results container. -/
def cardsOf : ResultsContainer → List String
  | .rendered cards _ => cards
  | _ => []

end Playground

/-- Concrete configuration with every provider unconfigured. -/
def cfgNone : Backend.ProviderConfig := fun _ => false

/-- Concrete configuration with every provider configured. -/
def cfgAll : Backend.ProviderConfig := fun _ => true

/-- Concrete price table with no prices. -/
def pricesNone : Backend.PriceTable := fun _ => none

/-- Concrete oracle answering every call with a 2xx text. -/
def oracleOk : Backend.HttpOracle := fun _ _ _ => .ok "hello" 1 none

/-- Concrete oracle answering every call with HTTP 500. -/
def oracleHttp : Backend.HttpOracle := fun _ _ _ => .httpStatus 500 "boom"

/-- Concrete judge response with all five scores in range. -/
def rawGood : Backend.RawJudgeResponse :=
  ⟨some 8, some 9, some 7, some 8, some 6, some "fine"⟩

/-- Concrete judge response missing its clarity score. -/
def rawBad : Backend.RawJudgeResponse :=
  ⟨none, some 9, some 7, some 8, some 6, some "fine"⟩

/-- The meta-analysis parsed out of `rawGood`. -/
def mGood : Backend.MetaAnalysis := ⟨8, 9, 7, 8, 6, "fine"⟩

/-- Concrete idle page state with one selected model and a prompt. -/
def st0 : Playground.UiState :=
  { selectedModels := ["gemini-2.0-flash-exp"]
    isAnalyzing := false
    currentResults := none
    systemInstructionVal := ""
    userPromptVal := "hi"
    container := .initialEmpty
    clearButtonHidden := true
    analyzeButtonDisabled := false
    analyzeButtonLabel := "Analyze Across Models"
    savedState := none }

/-- Concrete wire result for one model. -/
def wr0 : Playground.WireResult :=
  { model := "gemini-2.0-flash-exp", status := "Success", response := "ok", metadata := none }

/-- Concrete run-prompt response carrying `wr0`. -/
def data0 : Playground.RunPromptResponse := ⟨[wr0], 1⟩

/-- Concrete analysis record. -/
def an0 : Playground.Analysis := ⟨8, 9, 7, 8, 6, "fine"⟩

/-- Concrete analyze-results response carrying `an0`. -/
def d0 : Playground.AnalyzeResponse := ⟨an0⟩

/-- Concrete successful run-prompt fetch outcome. -/
def ro0 : Playground.FetchOutcome Playground.RunPromptResponse := .ok data0

/-- Concrete successful analyze-results fetch outcome. -/
def mo0 : Playground.FetchOutcome Playground.AnalyzeResponse := .ok d0

/-- Page state whose prompt is whitespace only. -/
def stNoPrompt : Playground.UiState := { st0 with userPromptVal := " " }

/-- Page state with no model selected. -/
def stNoModels : Playground.UiState := { st0 with selectedModels := [] }

/-- Page state with an analysis already in flight. -/
def stBusy : Playground.UiState := { st0 with isAnalyzing := true }

namespace Playground

/-- No escaped character expansion ever contains a raw `<` or `>`. -/
theorem escListL_no_raw (l : List Char) : '<' ∉ escListL l ∧ '>' ∉ escListL l := by
  induction l with
  | nil => simp [escListL]
  | cons c cs ih =>
    simp only [escListL, List.mem_append, not_or]
    refine ⟨⟨?_, ih.1⟩, ⟨?_, ih.2⟩⟩ <;>
    · unfold escCharL
      split
      · decide
      · split
        · decide
        · split
          · decide
          · rename_i h1 h2 h3
            simp only [List.mem_singleton]
            intro hh
            first
              | exact h2 hh.symm
              | exact h3 hh.symm

/-- Unescaping steps over any character that is not an ampersand. -/
theorem unescListL_cons_ne (c : Char) (rest : List Char) (h : c ≠ '&') :
    unescListL (c :: rest) = c :: unescListL rest := by
  rw [unescListL.eq_def]
  split <;> simp_all

/-- Unescaping is a left inverse of escaping: the escaped markup still
denotes the original text. -/
theorem unescListL_escListL (l : List Char) : unescListL (escListL l) = l := by
  induction l with
  | nil => rfl
  | cons c cs ih =>
    by_cases h1 : c = '&'
    · subst h1; simp [escListL, escCharL, unescListL, ih]
    · by_cases h2 : c = '<'
      · subst h2; simp [escListL, escCharL, unescListL, ih]
      · by_cases h3 : c = '>'
        · subst h3; simp [escListL, escCharL, unescListL, ih]
        · have : escCharL c = [c] := by simp [escCharL, h1, h2, h3]
          simp only [escListL, this, List.cons_append, List.nil_append]
          rw [unescListL_cons_ne c _ h1, ih]

end Playground

namespace Backend

/-- Appending cannot empty a non-empty string. -/
theorem str_append_ne_empty (s t : String) (h : s ≠ "") : s ++ t ≠ "" := by
  intro hcontra
  apply h
  have hd : s.data ++ t.data = [] := congrArg String.data hcontra
  have : s.data = [] := (List.append_eq_nil.mp hd).1
  cases s
  simp_all [String.ext_iff]

/-- The adapter reports the provider it was asked for, in every branch. -/
theorem invoke_fst_provider (cfg : ProviderConfig) (prices : PriceTable) (oracle : HttpOracle)
    (p s u : String) : ((invoke cfg prices oracle p s u).1).provider = p := by
  unfold invoke
  split
  · rfl
  · split
    · split <;> rfl
    · rfl
    · rfl
    · rfl

end Backend

/-- C1: For every ProviderResult produced by the Provider Adapter,
exactly one of responseText and errorDetail is populated: Success
implies a non-empty responseText and an absent errorDetail, Error
implies a non-empty errorDetail and an absent responseText, and
ConfigurationMissing carries neither. -/
theorem Backend.invoke_result_exclusive (cfg : Backend.ProviderConfig)
    (prices : Backend.PriceTable) (oracle : Backend.HttpOracle)
    (provider systemInstruction userPrompt : String) :
    ((Backend.invoke cfg prices oracle provider systemInstruction userPrompt).1.status
        = .success →
      ∃ t, (Backend.invoke cfg prices oracle provider systemInstruction userPrompt).1.responseText
            = some t
        ∧ t ≠ ""
        ∧ (Backend.invoke cfg prices oracle provider systemInstruction userPrompt).1.errorDetail
            = none)
    ∧ ((Backend.invoke cfg prices oracle provider systemInstruction userPrompt).1.status
        = .error →
      ∃ e, (Backend.invoke cfg prices oracle provider systemInstruction userPrompt).1.errorDetail
            = some e
        ∧ e ≠ ""
        ∧ (Backend.invoke cfg prices oracle provider systemInstruction userPrompt).1.responseText
            = none)
    ∧ ((Backend.invoke cfg prices oracle provider systemInstruction userPrompt).1.status
        = .configurationMissing →
      (Backend.invoke cfg prices oracle provider systemInstruction userPrompt).1.responseText
          = none
        ∧ (Backend.invoke cfg prices oracle provider systemInstruction userPrompt).1.errorDetail
          = none) := by
  unfold Backend.invoke
  split
  · simp
  · split
    · rename_i text latency tokens heq
      split
      · simp
      · rename_i ht
        simp [ht]
    · rename_i code providerMsg heq
      refine ⟨by simp, fun _ => ⟨_, rfl, ?_, rfl⟩, by simp⟩
      exact Backend.str_append_ne_empty _ _
        (Backend.str_append_ne_empty _ _ (Backend.str_append_ne_empty _ _ (by decide)))
    · rename_i msg heq
      refine ⟨by simp, fun _ => ⟨_, rfl, ?_, rfl⟩, by simp⟩
      exact Backend.str_append_ne_empty _ _ (by decide)
    · refine ⟨by simp, fun _ => ⟨_, rfl, ?_, rfl⟩, by simp⟩
      decide

/-- Witness for C1 at concrete inputs: a configured success, a
configured HTTP failure, and an unconfigured provider. -/
theorem invoke_result_exclusive_witness :
    (∃ t, (Backend.invoke cfgAll pricesNone oracleOk "m" "s" "p").1.responseText = some t
      ∧ t ≠ "" ∧ (Backend.invoke cfgAll pricesNone oracleOk "m" "s" "p").1.errorDetail = none)
    ∧ (∃ e, (Backend.invoke cfgAll pricesNone oracleHttp "m" "s" "p").1.errorDetail = some e
      ∧ e ≠ "" ∧ (Backend.invoke cfgAll pricesNone oracleHttp "m" "s" "p").1.responseText = none)
    ∧ ((Backend.invoke cfgNone pricesNone oracleOk "m" "s" "p").1.responseText = none
      ∧ (Backend.invoke cfgNone pricesNone oracleOk "m" "s" "p").1.errorDetail = none) :=
  ⟨(Backend.invoke_result_exclusive cfgAll pricesNone oracleOk "m" "s" "p").1 (by decide),
   (Backend.invoke_result_exclusive cfgAll pricesNone oracleHttp "m" "s" "p").2.1 (by decide),
   (Backend.invoke_result_exclusive cfgNone pricesNone oracleOk "m" "s" "p").2.2 (by decide)⟩

/-- C2: For every non-empty provider list, the Fan-Out Runner returns
exactly one result per requested provider, and the i-th result names
the i-th requested provider. -/
theorem Backend.runFanOut_preserves_order (cfg : Backend.ProviderConfig)
    (prices : Backend.PriceTable) (oracle : Backend.HttpOracle)
    (systemInstruction userPrompt : String)
    (providers : List String) (_hne : providers ≠ []) :
    (Backend.runFanOut cfg prices oracle systemInstruction userPrompt providers).results.length
      = providers.length
    ∧ ∀ i : Nat,
        ((Backend.runFanOut cfg prices oracle systemInstruction userPrompt providers).results[i]?).map
          (fun r => r.provider) = providers[i]? := by
  constructor
  · simp [Backend.runFanOut]
  · intro i
    simp only [Backend.runFanOut, List.getElem?_map, Option.map_map]
    cases providers[i]? <;> simp [Function.comp, Backend.invoke_fst_provider]

/-- Witness for C2 on the two-provider list. -/
theorem runFanOut_preserves_order_witness :
    (Backend.runFanOut cfgAll pricesNone oracleOk "s" "p" ["a", "b"]).results.length
      = (["a", "b"] : List String).length
    ∧ ((Backend.runFanOut cfgAll pricesNone oracleOk "s" "p" ["a", "b"]).results[0]?).map
        (fun r => r.provider) = (["a", "b"] : List String)[0]? :=
  ⟨(Backend.runFanOut_preserves_order cfgAll pricesNone oracleOk "s" "p" ["a", "b"]
      (by decide)).1,
   (Backend.runFanOut_preserves_order cfgAll pricesNone oracleOk "s" "p" ["a", "b"]
      (by decide)).2 0⟩

/-- C3: For every provider whose required configuration is absent, the
adapter issues zero outbound HTTP calls and returns
ConfigurationMissing, serialized on the wire as
`Configuration Required`. -/
theorem Backend.invoke_missing_config_no_http (cfg : Backend.ProviderConfig)
    (prices : Backend.PriceTable) (oracle : Backend.HttpOracle)
    (provider systemInstruction userPrompt : String)
    (h : cfg provider = false) :
    (Backend.invoke cfg prices oracle provider systemInstruction userPrompt).2 = 0
    ∧ (Backend.invoke cfg prices oracle provider systemInstruction userPrompt).1.status
        = .configurationMissing
    ∧ (Backend.serializeResult
        (Backend.invoke cfg prices oracle provider systemInstruction userPrompt).1).status
        = "Configuration Required" := by
  simp [Backend.invoke, h, Backend.serializeResult, Backend.statusWire]

/-- Witness for C3 with a fully unconfigured provider table. -/
theorem invoke_missing_config_no_http_witness :
    (Backend.invoke cfgNone pricesNone oracleOk "azure-gpt4" "s" "p").2 = 0
    ∧ (Backend.invoke cfgNone pricesNone oracleOk "azure-gpt4" "s" "p").1.status
        = .configurationMissing
    ∧ (Backend.serializeResult
        (Backend.invoke cfgNone pricesNone oracleOk "azure-gpt4" "s" "p").1).status
        = "Configuration Required" :=
  Backend.invoke_missing_config_no_http cfgNone pricesNone oracleOk "azure-gpt4" "s" "p" rfl

/-- C4: `analyze` fails with AnalysisUnavailable whenever any of the
five scores is missing or out of [0,10] or the summary is absent, and
every successfully returned MetaAnalysis has all five scores within
[0,10], equal to the parsed values with nothing substituted. -/
theorem Backend.analyze_validates_scores (raw : Backend.RawJudgeResponse) :
    ((Backend.scoreOk raw.clarity_score && Backend.scoreOk raw.relevance_score
        && Backend.scoreOk raw.factual_accuracy && Backend.scoreOk raw.reasoning_quality
        && Backend.scoreOk raw.conciseness && raw.overall_summary.isSome) = false →
      Backend.analyze raw = .error .analysisUnavailable)
    ∧ (∀ m : Backend.MetaAnalysis, Backend.analyze raw = .ok m →
        (0 ≤ m.clarity ∧ m.clarity ≤ 10) ∧ (0 ≤ m.relevance ∧ m.relevance ≤ 10)
        ∧ (0 ≤ m.factualAccuracy ∧ m.factualAccuracy ≤ 10)
        ∧ (0 ≤ m.reasoningQuality ∧ m.reasoningQuality ≤ 10)
        ∧ (0 ≤ m.conciseness ∧ m.conciseness ≤ 10)
        ∧ raw.clarity_score = some m.clarity
        ∧ raw.relevance_score = some m.relevance
        ∧ raw.factual_accuracy = some m.factualAccuracy
        ∧ raw.reasoning_quality = some m.reasoningQuality
        ∧ raw.conciseness = some m.conciseness
        ∧ raw.overall_summary = some m.overallSummary) := by
  constructor
  · intro hbad
    obtain ⟨c, r, f, q, n, s⟩ := raw
    cases c <;> cases r <;> cases f <;> cases q <;> cases n <;> cases s <;>
      simp_all [Backend.analyze, Backend.scoreOk]
  · intro m hm
    revert hm
    unfold Backend.analyze
    split
    · split
      · rename_i hcond
        intro hm
        injection hm with hm
        subst hm
        simp only [Backend.scoreOk, Bool.and_eq_true, decide_eq_true_eq] at hcond
        obtain ⟨⟨⟨⟨hc2, hr2⟩, hf2⟩, hq2⟩, hn2⟩ := hcond
        simp_all
      · intro hm
        simp at hm
    · intro hm
      simp at hm

/-- Witness for C4: a judge response missing a score is rejected, and a
well-formed one yields in-range scores. -/
theorem analyze_validates_scores_witness :
    Backend.analyze rawBad = .error .analysisUnavailable
    ∧ (0 ≤ mGood.clarity ∧ mGood.clarity ≤ 10) :=
  ⟨(Backend.analyze_validates_scores rawBad).1 (by decide),
   ((Backend.analyze_validates_scores rawGood).2 mGood (by rfl)).1⟩

/-- C5: After a successful run-prompt response, `handleAnalyze` issues
exactly one meta-analysis request carrying exactly the returned results
array and the (trimmed) user prompt, and on a successful meta-analysis
the trace is run-prompt request, card rendering, meta-analysis request,
score rendering, in that order. -/
theorem Playground.handleAnalyze_meta_request_flow (st : Playground.UiState)
    (mo : Playground.FetchOutcome Playground.AnalyzeResponse)
    (data : Playground.RunPromptResponse)
    (h0 : st.isAnalyzing = false)
    (h1 : Playground.jsTrim st.userPromptVal ≠ "")
    (h2 : st.selectedModels ≠ []) :
    ((Playground.handleAnalyze st (.ok data) mo).2.filter Playground.isAnalyzeRequest
      = [Playground.Event.analyzeResultsRequest data.results (Playground.jsTrim st.userPromptVal)])
    ∧ (∀ d, mo = .ok d →
        (Playground.handleAnalyze st (.ok data) mo).2 =
          [Playground.Event.runPromptRequest (Playground.jsTrim st.systemInstructionVal)
             (Playground.jsTrim st.userPromptVal) st.selectedModels,
           Playground.Event.cardsRendered data.results,
           Playground.Event.analyzeResultsRequest data.results
             (Playground.jsTrim st.userPromptVal),
           Playground.Event.metaScoresRendered d.analysis]) := by
  have hlen : ¬ st.selectedModels.length = 0 := by
    simpa [List.length_eq_zero] using h2
  constructor
  · cases mo <;>
      simp [Playground.handleAnalyze, Playground.getMetaAnalysis,
        Playground.isAnalyzeRequest, Playground.updateAnalyzeButton,
        Playground.displayResults, Playground.saveState, Playground.setMetaVisible,
        Playground.setMetaHtml, h0, h1, hlen]
  · rintro d rfl
    simp [Playground.handleAnalyze, Playground.getMetaAnalysis,
      Playground.updateAnalyzeButton, Playground.displayResults, Playground.saveState,
      Playground.setMetaVisible, Playground.setMetaHtml, h0, h1, hlen]

/-- Witness for C5 on a concrete idle state and successful responses. -/
theorem handleAnalyze_meta_request_flow_witness :
    ((Playground.handleAnalyze st0 (.ok data0) (.ok d0)).2.filter Playground.isAnalyzeRequest
      = [Playground.Event.analyzeResultsRequest data0.results
          (Playground.jsTrim st0.userPromptVal)])
    ∧ ((Playground.handleAnalyze st0 (.ok data0) (.ok d0)).2 =
        [Playground.Event.runPromptRequest (Playground.jsTrim st0.systemInstructionVal)
           (Playground.jsTrim st0.userPromptVal) st0.selectedModels,
         Playground.Event.cardsRendered data0.results,
         Playground.Event.analyzeResultsRequest data0.results
           (Playground.jsTrim st0.userPromptVal),
         Playground.Event.metaScoresRendered d0.analysis]) :=
  ⟨(Playground.handleAnalyze_meta_request_flow st0 (.ok d0) data0 rfl (by decide) (by decide)).1,
   (Playground.handleAnalyze_meta_request_flow st0 (.ok d0) data0 rfl (by decide) (by decide)).2
     d0 rfl⟩

/-- C6: A failed meta-analysis replaces only the meta-analysis panel
with the failure markup; the rendered per-provider cards and the stored
run results are exactly those of the successful run, for every
meta-analysis outcome. -/
theorem Playground.metaFailure_frame (st : Playground.UiState)
    (data : Playground.RunPromptResponse)
    (h0 : st.isAnalyzing = false)
    (h1 : Playground.jsTrim st.userPromptVal ≠ "")
    (h2 : st.selectedModels ≠ []) :
    (∀ s : Nat,
      (Playground.handleAnalyze st (.ok data) (.httpErrorStatus s)).1.container
        = .rendered (data.results.map Playground.createResultCard)
            ⟨true, Playground.metaFailureHtml ("HTTP error! status: " ++ toString s)⟩)
    ∧ (∀ msg : String,
      (Playground.handleAnalyze st (.ok data) (.networkError msg)).1.container
        = .rendered (data.results.map Playground.createResultCard)
            ⟨true, Playground.metaFailureHtml msg⟩)
    ∧ (∀ mo mo' : Playground.FetchOutcome Playground.AnalyzeResponse,
      Playground.cardsOf (Playground.handleAnalyze st (.ok data) mo).1.container
        = Playground.cardsOf (Playground.handleAnalyze st (.ok data) mo').1.container)
    ∧ (∀ mo : Playground.FetchOutcome Playground.AnalyzeResponse,
      (Playground.handleAnalyze st (.ok data) mo).1.currentResults = some data.results) := by
  have hlen : ¬ st.selectedModels.length = 0 := by
    simpa [List.length_eq_zero] using h2
  refine ⟨?_, ?_, ?_, ?_⟩
  · intro s
    simp [Playground.handleAnalyze, Playground.getMetaAnalysis, Playground.displayResults,
      Playground.setMetaVisible, Playground.setMetaHtml, Playground.saveState,
      Playground.updateAnalyzeButton, Playground.errMessage, h0, h1, hlen]
  · intro msg
    simp [Playground.handleAnalyze, Playground.getMetaAnalysis, Playground.displayResults,
      Playground.setMetaVisible, Playground.setMetaHtml, Playground.saveState,
      Playground.updateAnalyzeButton, Playground.errMessage, h0, h1, hlen]
  · intro mo mo'
    cases mo <;> cases mo' <;>
      simp [Playground.handleAnalyze, Playground.getMetaAnalysis, Playground.displayResults,
        Playground.setMetaVisible, Playground.setMetaHtml, Playground.saveState,
        Playground.updateAnalyzeButton, Playground.errMessage, Playground.cardsOf,
        h0, h1, hlen]
  · intro mo
    cases mo <;>
      simp [Playground.handleAnalyze, Playground.getMetaAnalysis, Playground.displayResults,
        Playground.setMetaVisible, Playground.setMetaHtml, Playground.saveState,
        Playground.updateAnalyzeButton, Playground.errMessage, h0, h1, hlen]

/-- Witness for C6 on a concrete state and an HTTP 500 judge failure. -/
theorem metaFailure_frame_witness :
    ((Playground.handleAnalyze st0 (.ok data0) (.httpErrorStatus 500)).1.container
      = .rendered (data0.results.map Playground.createResultCard)
          ⟨true, Playground.metaFailureHtml ("HTTP error! status: " ++ toString 500)⟩)
    ∧ ((Playground.handleAnalyze st0 (.ok data0) (.httpErrorStatus 500)).1.currentResults
        = some data0.results) :=
  ⟨(Playground.metaFailure_frame st0 data0 rfl (by decide) (by decide)).1 500,
   (Playground.metaFailure_frame st0 data0 rfl (by decide) (by decide)).2.2.2
     (.httpErrorStatus 500)⟩

/-- C7: A submission whose trimmed prompt is empty, or whose selected
model set is empty, is rejected up front: state is unchanged, the only
observable step is a page-level alert, and no run-prompt request is
issued, so no adapter is ever reached and no per-provider result is
produced. -/
theorem Playground.invalid_submission_rejected (st : Playground.UiState)
    (ro : Playground.FetchOutcome Playground.RunPromptResponse)
    (mo : Playground.FetchOutcome Playground.AnalyzeResponse)
    (h0 : st.isAnalyzing = false) :
    (Playground.jsTrim st.userPromptVal = "" →
      Playground.handleAnalyze st ro mo
        = (st, [Playground.Event.alertShown "Please enter a user prompt"]))
    ∧ (Playground.jsTrim st.userPromptVal ≠ "" → st.selectedModels = [] →
      Playground.handleAnalyze st ro mo
        = (st, [Playground.Event.alertShown "Please select at least one model"]))
    ∧ ((Playground.jsTrim st.userPromptVal = "" ∨ st.selectedModels = []) →
      (Playground.handleAnalyze st ro mo).2.filter Playground.isRunPromptRequest = []) := by
  refine ⟨?_, ?_, ?_⟩
  · intro hp
    simp [Playground.handleAnalyze, h0, hp]
  · intro hp hsel
    simp [Playground.handleAnalyze, h0, hp, hsel]
  · rintro (hp | hsel)
    · simp [Playground.handleAnalyze, h0, hp, Playground.isRunPromptRequest]
    · by_cases hp : Playground.jsTrim st.userPromptVal = "" <;>
        simp [Playground.handleAnalyze, h0, hp, hsel, Playground.isRunPromptRequest]

/-- Witness for C7 on a whitespace-only prompt and on an empty model
selection. -/
theorem invalid_submission_rejected_witness :
    Playground.handleAnalyze stNoPrompt ro0 mo0
      = (stNoPrompt, [Playground.Event.alertShown "Please enter a user prompt"])
    ∧ Playground.handleAnalyze stNoModels ro0 mo0
      = (stNoModels, [Playground.Event.alertShown "Please select at least one model"])
    ∧ (Playground.handleAnalyze stNoPrompt ro0 mo0).2.filter Playground.isRunPromptRequest
      = [] :=
  ⟨(Playground.invalid_submission_rejected stNoPrompt ro0 mo0 rfl).1 (by decide),
   (Playground.invalid_submission_rejected stNoModels ro0 mo0 rfl).2.1 (by decide) rfl,
   (Playground.invalid_submission_rejected stNoPrompt ro0 mo0 rfl).2.2 (Or.inl (by decide))⟩

/-- C9: At most one analysis is in flight: when `isAnalyzing` is set,
`handleAnalyze` returns immediately with no events and no state change,
`updateAnalyzeButton` disables the button, and every completion path of
`handleAnalyze` from an idle state leaves `isAnalyzing` false. -/
theorem Playground.single_flight (st : Playground.UiState)
    (ro : Playground.FetchOutcome Playground.RunPromptResponse)
    (mo : Playground.FetchOutcome Playground.AnalyzeResponse) :
    (st.isAnalyzing = true → Playground.handleAnalyze st ro mo = (st, []))
    ∧ (st.isAnalyzing = true → (Playground.updateAnalyzeButton st).analyzeButtonDisabled = true)
    ∧ (st.isAnalyzing = false → (Playground.handleAnalyze st ro mo).1.isAnalyzing = false) := by
  refine ⟨?_, ?_, ?_⟩
  · intro h
    simp [Playground.handleAnalyze, h]
  · intro h
    simp [Playground.updateAnalyzeButton, h]
  · intro h
    by_cases hp : Playground.jsTrim st.userPromptVal = ""
    · simp [Playground.handleAnalyze, h, hp]
    · by_cases hsel : st.selectedModels.length = 0
      · simp [Playground.handleAnalyze, h, hp, hsel]
      · cases ro <;> cases mo <;>
          simp [Playground.handleAnalyze, Playground.getMetaAnalysis,
            Playground.displayResults, Playground.saveState,
            Playground.updateAnalyzeButton, h, hp, hsel]

/-- Witness for C9 on a busy state and on an idle state. -/
theorem single_flight_witness :
    Playground.handleAnalyze stBusy ro0 mo0 = (stBusy, [])
    ∧ (Playground.updateAnalyzeButton stBusy).analyzeButtonDisabled = true
    ∧ (Playground.handleAnalyze st0 ro0 mo0).1.isAnalyzing = false :=
  ⟨(Playground.single_flight stBusy ro0 mo0).1 rfl,
   (Playground.single_flight stBusy ro0 mo0).2.1 rfl,
   (Playground.single_flight st0 ro0 mo0).2.2 rfl⟩

/-- C8: The response text inserted by `createResultCard` and the overall
summary inserted by `displayMetaAnalysis` pass through `escapeHtml`
first, and `escapeHtml` output contains no raw `<` or `>` and still
denotes the original text (unescaping recovers it), so model output
never appears as raw markup. -/
theorem Playground.model_output_escaped :
    (∀ r : Playground.WireResult, Playground.createResultCard r
        = Playground.cardHead r
          ++ Playground.nlToBr (Playground.escapeHtml (Playground.responseFor r))
          ++ Playground.cardTail r)
    ∧ (∀ a : Playground.Analysis, Playground.displayMetaAnalysisHtml a
        = Playground.metaScoresHead a
          ++ Playground.escapeHtml a.overall_summary
          ++ Playground.metaSummaryTail)
    ∧ (∀ s : String,
        '<' ∉ (Playground.escapeHtml s).data ∧ '>' ∉ (Playground.escapeHtml s).data)
    ∧ (∀ s : String, Playground.unescapeHtml (Playground.escapeHtml s) = s) := by
  refine ⟨fun r => rfl, fun a => rfl,
    fun s => Playground.escListL_no_raw s.data, fun s => ?_⟩
  show String.mk (Playground.unescListL (Playground.escListL s.data)) = s
  rw [Playground.unescListL_escListL]

/-- C10: Toggling the same model twice restores the membership of every
model in the selected set: double toggle is the identity on selected
membership. -/
theorem Playground.toggleModelSelection_double (st : Playground.UiState) (m x : String) :
    x ∈ (Playground.toggleModelSelection m
          (Playground.toggleModelSelection m st)).selectedModels ↔
      x ∈ st.selectedModels := by
  simp only [Playground.toggleModelSelection, Playground.updateAnalyzeButton]
  by_cases hc : st.selectedModels.contains m
  · simp only [hc, if_true]
    have hnc : ¬ (st.selectedModels.filter (fun a => a != m)).contains m := by
      simp [List.contains, List.elem_iff, List.mem_filter]
    simp only [hnc, if_false, List.mem_append, List.mem_filter, List.mem_singleton]
    have hm : m ∈ st.selectedModels := by
      simpa [List.contains, List.elem_iff] using hc
    by_cases hx : x = m
    · subst hx; simp [hm]
    · simp [hx, bne_iff_ne]
  · simp only [hc]
    have hc2 : (st.selectedModels ++ [m]).contains m := by
      simp [List.contains, List.elem_iff]
    simp only [Bool.false_eq_true, if_false]
    simp only [hc2, if_true, List.filter_append, List.mem_append, List.mem_filter]
    have hm : m ∉ st.selectedModels := by
      simpa [List.contains, List.elem_iff] using hc
    by_cases hx : x = m
    · subst hx
      constructor
      · rintro (⟨hmem, hne⟩ | ⟨hmem, hne⟩) <;> simp [bne_iff_ne] at hne
      · intro hmem
        exact absurd hmem hm
    · constructor
      · rintro (⟨hmem, _⟩ | ⟨hmem2, hne⟩)
        · exact hmem
        · exact absurd (List.mem_singleton.mp hmem2) hx
      · intro hmem
        exact Or.inl ⟨hmem, by simpa [bne_iff_ne] using hx⟩
